import Mathlib

/-!
Verification of the obstacle-avoidance controller
(`obstacle_avoidance_real.py`): a shallow embedding of the PID
controller, the range preprocessing, the tiered avoidance policy and
the command clamp, with theorems checking the specified properties.
Real-valued program quantities are modelled by rationals.
-/

/-- State of one `PIDController` instance: gains `kP, kI, kD`, history
capacity `kS`, running integral `err_int`, last difference `err_dif`,
previous error `err_prev`, the bounded FIFO `err_hist` (head is the
oldest element), and previous timestamp `t_prev`. Mirrors
`PIDController.__init__`. -/
structure PIDState where
  kP : ℚ
  kI : ℚ
  kD : ℚ
  kS : ℕ
  err_int : ℚ
  err_dif : ℚ
  err_prev : ℚ
  err_hist : List ℚ
  t_prev : ℚ
  deriving Repr, DecidableEq

/-- A freshly constructed `PIDController(kP, kI, kD, kS)`. -/
def pidInit (kP kI kD : ℚ) (kS : ℕ) : PIDState :=
  { kP := kP, kI := kI, kD := kD, kS := kS
    err_int := 0, err_dif := 0, err_prev := 0, err_hist := [], t_prev := 0 }

/-- The FIFO update inside `PIDController.control`: append `err` to the
history, add it to the running sum, and if the queue is now full
(`qsize >= maxsize > 0`, the semantics of `queue.Queue.full`) pop the
oldest entry and subtract it from the sum. -/
def fifoPush (hist : List ℚ) (errInt err : ℚ) (kS : ℕ) : List ℚ × ℚ :=
  let h1 := hist ++ [err]
  let i1 := errInt + err
  if 0 < kS ∧ kS ≤ h1.length then (h1.tail, i1 - h1.headI) else (h1, i1)

/-- The operation `PIDController.control(err, t)`: no-op (no output, no state change)
when `dt = t - t_prev <= 0`; otherwise update the FIFO and integral,
compute `u = kP*err + kI*err_int*dt + kD*(err - err_prev)/dt` and
record the call's error and timestamp. -/
def PIDController.control (s : PIDState) (err t : ℚ) : Option ℚ × PIDState :=
  let dt := t - s.t_prev
  if 0 < dt then
    let p := fifoPush s.err_hist s.err_int err s.kS
    let dif := err - s.err_prev
    let u := s.kP * err + s.kI * p.2 * dt + s.kD * dif / dt
    (some u,
      { s with err_hist := p.1, err_int := p.2, err_dif := dif,
               err_prev := err, t_prev := t })
  else (none, s)

/-- Claim C4: on a call with `dt = t - t_prev > 0` the returned output is
`kP*err + kI*errInt'*dt + kD*(err - err_prev)/dt` where `errInt'` is the
running sum after the FIFO update, and the state records the call's
error and timestamp (FIFO and integral updated accordingly). -/
theorem pid_control_formula (s : PIDState) (err t : ℚ)
    (h : 0 < t - s.t_prev) :
    (PIDController.control s err t).1 =
        some (s.kP * err
          + s.kI * (fifoPush s.err_hist s.err_int err s.kS).2 * (t - s.t_prev)
          + s.kD * (err - s.err_prev) / (t - s.t_prev))
    ∧ (PIDController.control s err t).2.err_prev = err
    ∧ (PIDController.control s err t).2.t_prev = t
    ∧ (PIDController.control s err t).2.err_int
        = (fifoPush s.err_hist s.err_int err s.kS).2
    ∧ (PIDController.control s err t).2.err_hist
        = (fifoPush s.err_hist s.err_int err s.kS).1 := by
  simp [PIDController.control, h]

/-- Witness for C4 at a concrete call. -/
theorem pid_control_formula_witness :
    (PIDController.control (pidInit 0.22 0.01 0.3 10) 2 1).1 =
        some ((pidInit 0.22 0.01 0.3 10).kP * 2
          + (pidInit 0.22 0.01 0.3 10).kI
              * (fifoPush (pidInit 0.22 0.01 0.3 10).err_hist
                  (pidInit 0.22 0.01 0.3 10).err_int 2
                  (pidInit 0.22 0.01 0.3 10).kS).2
              * (1 - (pidInit 0.22 0.01 0.3 10).t_prev)
          + (pidInit 0.22 0.01 0.3 10).kD
              * (2 - (pidInit 0.22 0.01 0.3 10).err_prev)
              / (1 - (pidInit 0.22 0.01 0.3 10).t_prev))
    ∧ (PIDController.control (pidInit 0.22 0.01 0.3 10) 2 1).2.err_prev = 2
    ∧ (PIDController.control (pidInit 0.22 0.01 0.3 10) 2 1).2.t_prev = 1
    ∧ (PIDController.control (pidInit 0.22 0.01 0.3 10) 2 1).2.err_int
        = (fifoPush (pidInit 0.22 0.01 0.3 10).err_hist
            (pidInit 0.22 0.01 0.3 10).err_int 2
            (pidInit 0.22 0.01 0.3 10).kS).2
    ∧ (PIDController.control (pidInit 0.22 0.01 0.3 10) 2 1).2.err_hist
        = (fifoPush (pidInit 0.22 0.01 0.3 10).err_hist
            (pidInit 0.22 0.01 0.3 10).err_int 2
            (pidInit 0.22 0.01 0.3 10).kS).1 :=
  pid_control_formula (pidInit 0.22 0.01 0.3 10) 2 1 (by norm_num [pidInit])

/-- Claim C5: a call with `dt = t - t_prev <= 0` mutates no state and
produces no output. -/
theorem pid_control_noop (s : PIDState) (err t : ℚ)
    (h : t - s.t_prev ≤ 0) :
    PIDController.control s err t = (none, s) := by
  simp [PIDController.control, not_lt.mpr h]

/-- Witness for C5 at a concrete call with a non-advancing timestamp. -/
theorem pid_control_noop_witness :
    PIDController.control
        { pidInit 0.22 0.01 0.3 10 with t_prev := 5 } 3 5 =
      (none, { pidInit 0.22 0.01 0.3 10 with t_prev := 5 }) :=
  pid_control_noop _ 3 5 (by norm_num [pidInit])

/-- The aggregation `np.mean` over a slice, on rationals. -/
def npMean (l : List ℚ) : ℚ := l.sum / l.length

/-- The numpy slice `l[a:b]` for `a <= b` within bounds. -/
def npSlice (l : List ℚ) (a b : ℕ) : List ℚ := (l.drop a).take (b - a)

/-- The maximum-range filter of `robot_laserscan_callback`: every sample
`>= 3.5` is replaced by `3.5` (one-sided; no lower clamp exists). -/
def clampScan (l : List ℚ) : List ℚ :=
  l.map (fun x => if 3.5 ≤ x then 3.5 else x)

/-- The five sector clearances computed by one control cycle. -/
structure Snapshot where
  front : ℚ
  obliqueLeft : ℚ
  obliqueRight : ℚ
  left : ℚ
  right : ℚ
  deriving Repr, DecidableEq

/-- Sector aggregation of `robot_controller_callback` (lines 120-130):
`front = mean(scan[0:20]) + mean(scan[340:360])/2`,
`obliqueLeft = mean(scan[0:70])`, `obliqueRight = mean(scan[290:360])`,
`left = mean(scan[30:85])`, `right = mean(scan[275:330])`. -/
def preprocess (l : List ℚ) : Snapshot :=
  { front := npMean (npSlice l 0 20) + npMean (npSlice l 340 360) / 2
    obliqueLeft := npMean (npSlice l 0 70)
    obliqueRight := npMean (npSlice l 290 360)
    left := npMean (npSlice l 30 85)
    right := npMean (npSlice l 275 330) }

/-- The three driving tiers of the avoidance policy. -/
inductive Tier where
  | collisionImminent
  | caution
  | clear
  deriving Repr, DecidableEq

/-- Tier selection: the guard cascade of lines 133-139:
`if oblique_left < 0.5 or oblique_right < 0.5` then collision-imminent,
`elif (0.5 < oblique_left < 1) or (0.5 < oblique_right < 1)` then
caution, else clear. -/
def tierOf (snap : Snapshot) : Tier :=
  if snap.obliqueLeft < 0.5 ∨ snap.obliqueRight < 0.5 then
    Tier.collisionImminent
  else if (0.5 < snap.obliqueLeft ∧ snap.obliqueLeft < 1)
      ∨ (0.5 < snap.obliqueRight ∧ snap.obliqueRight < 1) then
    Tier.caution
  else
    Tier.clear

/-- The policy body of `robot_controller_callback` (lines 133-141): pick
the tier from the snapshot and compute the raw `LIN_VEL` / `ANG_VEL`,
threading the two PID controller states. A `none` component records a
PID call that was a no-op (Python `None`). -/
def decideCmd (snap : Snapshot) (lat lon : PIDState) (t : ℚ) :
    Option ℚ × Option ℚ × PIDState × PIDState :=
  match tierOf snap with
  | Tier.collisionImminent =>
      let a := PIDController.control lat (16 * (snap.left - snap.right)) t
      (some 0.005, a.1, a.2, lon)
  | Tier.caution =>
      let v := PIDController.control lon snap.front t
      let a := PIDController.control lat (snap.left - snap.right) t
      (v.1, a.1, a.2, v.2)
  | Tier.clear =>
      let a := PIDController.control lat (snap.left - snap.right) t
      (some 0.2, a.1, a.2, lon)

/-- Python `min(cap, x)` as used on lines 142-143: a number is clamped,
while `None` (a no-op PID output) raises a `TypeError`. -/
def pyMin (cap : ℚ) : Option ℚ → Except String ℚ
  | some v => Except.ok (min cap v)
  | none => Except.error "TypeError"

/-- Lines 142-143 of the callback: saturate the raw command
(`min(0.22, LIN_VEL)`, `min(2.84, ANG_VEL)`) before it is published. -/
def emit (linRaw angRaw : Option ℚ) : Except String (ℚ × ℚ) := do
  let lin ← pyMin 0.22 linRaw
  let ang ← pyMin 2.84 angRaw
  pure (lin, ang)

/-- One policy-plus-saturation step of `robot_controller_callback`:
the published command (or the raised error) and the new PID states. -/
def callbackStep (snap : Snapshot) (lat lon : PIDState) (t : ℚ) :
    Except String (ℚ × ℚ) × PIDState × PIDState :=
  let d := decideCmd snap lat lon t
  (emit d.1 d.2.1, d.2.2)

/-- Claim C1: whenever `obliqueLeft < 0.5` or `obliqueRight < 0.5` the
collision-imminent tier is selected, the raw linear velocity is exactly
0.005 whatever `front`, `left`, `right` are, and the angular velocity
is the lateral PID output for the error `16 * (left - right)`. -/
theorem collision_tier_behavior (snap : Snapshot) (lat lon : PIDState)
    (t : ℚ) (h : snap.obliqueLeft < 0.5 ∨ snap.obliqueRight < 0.5) :
    tierOf snap = Tier.collisionImminent
    ∧ (decideCmd snap lat lon t).1 = some 0.005
    ∧ (decideCmd snap lat lon t).2.1 =
        (PIDController.control lat (16 * (snap.left - snap.right)) t).1 := by
  have ht : tierOf snap = Tier.collisionImminent := by
    simp [tierOf, h]
  refine ⟨ht, ?_, ?_⟩ <;> simp [decideCmd, ht]

/-- Witness for C1 at the end-to-end scenario of the spec:
`obliqueLeft = 0.3`, `obliqueRight = 2.0`, `left = 1.0`, `right = 3.0`. -/
theorem collision_tier_behavior_witness :
    tierOf ⟨1, 0.3, 2, 1, 3⟩ = Tier.collisionImminent
    ∧ (decideCmd ⟨1, 0.3, 2, 1, 3⟩ (pidInit 0.22 0.01 0.3 10)
        (pidInit 0.11 0.001 0.01 10) 1).1 = some 0.005
    ∧ (decideCmd ⟨1, 0.3, 2, 1, 3⟩ (pidInit 0.22 0.01 0.3 10)
        (pidInit 0.11 0.001 0.01 10) 1).2.1 =
        (PIDController.control (pidInit 0.22 0.01 0.3 10)
          (16 * ((1 : ℚ) - 3)) 1).1 :=
  collision_tier_behavior ⟨1, 0.3, 2, 1, 3⟩ _ _ 1 (Or.inl (by norm_num))

/-- Claim C6 counterexample: a snapshot with `obliqueLeft = 0.5` and
`obliqueRight = 2 >= 1` lies in the claimed caution region
`0.5 <= obliqueLeft < 1`, yet the code selects the clear tier (its
caution guard is strict: `oblique_left > 0.5`). -/
theorem caution_tier_boundary_cex :
    ((0.5 : ℚ) ≤ 0.5 ∧ (0.5 : ℚ) < 1)
    ∧ tierOf ⟨1, 0.5, 2, 0, 0⟩ = Tier.clear
    ∧ Tier.clear ≠ Tier.caution := by
  refine ⟨by norm_num, by norm_num [tierOf], by simp⟩

/-- Claim C6 (amended): when `obliqueLeft >= 0.5` and
`obliqueRight >= 0.5`, the caution tier is selected exactly when
`(0.5 < obliqueLeft < 1)` or `(0.5 < obliqueRight < 1)` (strict lower
bounds: a value of exactly 0.5 falls through to the clear tier); in the
caution tier the raw linear velocity is the longitudinal PID output for
the error `front` and the angular velocity is the lateral PID output
for the error `left - right`. -/
theorem caution_tier_behavior (snap : Snapshot) (lat lon : PIDState)
    (t : ℚ) (hL : 0.5 ≤ snap.obliqueLeft) (hR : 0.5 ≤ snap.obliqueRight) :
    (tierOf snap = Tier.caution ↔
      ((0.5 < snap.obliqueLeft ∧ snap.obliqueLeft < 1)
        ∨ (0.5 < snap.obliqueRight ∧ snap.obliqueRight < 1)))
    ∧ (tierOf snap = Tier.caution →
        (decideCmd snap lat lon t).1 =
            (PIDController.control lon snap.front t).1
        ∧ (decideCmd snap lat lon t).2.1 =
            (PIDController.control lat (snap.left - snap.right) t).1) := by
  have h1 : ¬(snap.obliqueLeft < 0.5 ∨ snap.obliqueRight < 0.5) := by
    push_neg
    exact ⟨hL, hR⟩
  constructor
  · constructor
    · intro hc
      by_contra hg
      simp [tierOf, h1, hg] at hc
    · intro hg
      simp [tierOf, h1, hg]
  · intro hc
    constructor <;> simp [decideCmd, hc]

/-- Witness for C6 (amended) at `obliqueLeft = 0.7`. -/
theorem caution_tier_behavior_witness :
    (tierOf ⟨0.3, 0.7, 2, 1, 3⟩ = Tier.caution ↔
      ((0.5 < (0.7 : ℚ) ∧ (0.7 : ℚ) < 1) ∨ (0.5 < (2 : ℚ) ∧ (2 : ℚ) < 1)))
    ∧ (tierOf ⟨0.3, 0.7, 2, 1, 3⟩ = Tier.caution →
        (decideCmd ⟨0.3, 0.7, 2, 1, 3⟩ (pidInit 0.22 0.01 0.3 10)
            (pidInit 0.11 0.001 0.01 10) 1).1 =
          (PIDController.control (pidInit 0.11 0.001 0.01 10) 0.3 1).1
        ∧ (decideCmd ⟨0.3, 0.7, 2, 1, 3⟩ (pidInit 0.22 0.01 0.3 10)
            (pidInit 0.11 0.001 0.01 10) 1).2.1 =
          (PIDController.control (pidInit 0.22 0.01 0.3 10)
            ((1 : ℚ) - 3) 1).1) :=
  caution_tier_behavior ⟨0.3, 0.7, 2, 1, 3⟩ _ _ 1 (by norm_num) (by norm_num)

/-- Claim C7: the saturation of lines 142-143 caps the linear channel at
0.22 and the angular channel at 2.84 by a one-sided minimum: an input
above the cap becomes exactly the cap, any other input (negative values
included) passes through unchanged; there is no lower bound. -/
theorem clamp_one_sided (lin ang : ℚ) :
    emit (some lin) (some ang) =
      Except.ok ((if 0.22 < lin then 0.22 else lin),
                 (if 2.84 < ang then 2.84 else ang)) := by
  have hl : min (0.22 : ℚ) lin = if 0.22 < lin then 0.22 else lin := by
    rcases le_or_lt lin 0.22 with h | h
    · simp [min_eq_right h, not_lt.mpr h]
    · simp [min_eq_left h.le, h]
  have ha : min (2.84 : ℚ) ang = if 2.84 < ang then 2.84 else ang := by
    rcases le_or_lt ang 2.84 with h | h
    · simp [min_eq_right h, not_lt.mpr h]
    · simp [min_eq_left h.le, h]
  simp [emit, pyMin, hl, ha]
  rfl

/-- Claim C10: tier selection is a function of `obliqueLeft` and
`obliqueRight` alone (two snapshots agreeing on those agree on the
tier), and for every snapshot exactly one tier fires: collision-imminent
iff its guard holds, caution iff the collision guard fails and the
caution guard holds, clear iff both guards fail. -/
theorem tier_selection_exclusive (s1 s2 : Snapshot)
    (hL : s1.obliqueLeft = s2.obliqueLeft)
    (hR : s1.obliqueRight = s2.obliqueRight) :
    tierOf s1 = tierOf s2
    ∧ (tierOf s1 = Tier.collisionImminent ↔
        (s1.obliqueLeft < 0.5 ∨ s1.obliqueRight < 0.5))
    ∧ (tierOf s1 = Tier.caution ↔
        (¬(s1.obliqueLeft < 0.5 ∨ s1.obliqueRight < 0.5)
          ∧ ((0.5 < s1.obliqueLeft ∧ s1.obliqueLeft < 1)
            ∨ (0.5 < s1.obliqueRight ∧ s1.obliqueRight < 1))))
    ∧ (tierOf s1 = Tier.clear ↔
        (¬(s1.obliqueLeft < 0.5 ∨ s1.obliqueRight < 0.5)
          ∧ ¬((0.5 < s1.obliqueLeft ∧ s1.obliqueLeft < 1)
            ∨ (0.5 < s1.obliqueRight ∧ s1.obliqueRight < 1)))) := by
  refine ⟨by simp [tierOf, hL, hR], ?_, ?_, ?_⟩ <;>
    · unfold tierOf
      split <;> [skip; split] <;> simp_all

/-- Witness for C10 at two snapshots differing only in `front`, `left`,
`right`. -/
theorem tier_selection_exclusive_witness :
    tierOf ⟨0, 0.7, 2, 5, 9⟩ = tierOf ⟨3, 0.7, 2, 0, 1⟩
    ∧ (tierOf ⟨0, 0.7, 2, 5, 9⟩ = Tier.collisionImminent ↔
        ((0.7 : ℚ) < 0.5 ∨ (2 : ℚ) < 0.5))
    ∧ (tierOf ⟨0, 0.7, 2, 5, 9⟩ = Tier.caution ↔
        (¬((0.7 : ℚ) < 0.5 ∨ (2 : ℚ) < 0.5)
          ∧ ((0.5 < (0.7 : ℚ) ∧ (0.7 : ℚ) < 1)
            ∨ (0.5 < (2 : ℚ) ∧ (2 : ℚ) < 1))))
    ∧ (tierOf ⟨0, 0.7, 2, 5, 9⟩ = Tier.clear ↔
        (¬((0.7 : ℚ) < 0.5 ∨ (2 : ℚ) < 0.5)
          ∧ ¬((0.5 < (0.7 : ℚ) ∧ (0.7 : ℚ) < 1)
            ∨ (0.5 < (2 : ℚ) ∧ (2 : ℚ) < 1)))) :=
  tier_selection_exclusive ⟨0, 0.7, 2, 5, 9⟩ ⟨3, 0.7, 2, 0, 1⟩ rfl rfl

/-- Claim C2 (code bug): in a cycle where the lateral PID call is a
no-op (here: the callback timestamp equals the controller's stored
`t_prev`), `ANG_VEL` is `None` and line 143 evaluates
`min(2.84, None)`, which raises a `TypeError` — no command at all is
published, instead of the previous cycle's command being re-emitted. -/
theorem noop_cycle_raises :
    (callbackStep ⟨1, 0.3, 2, 1, 3⟩
        { pidInit 0.22 0.01 0.3 10 with t_prev := 5 }
        (pidInit 0.11 0.001 0.01 10) 5).1 =
      Except.error "TypeError" := by
  have ht : tierOf ⟨1, 0.3, 2, 1, 3⟩ = Tier.collisionImminent := by
    norm_num [tierOf]
  have hc : (PIDController.control
      { pidInit 0.22 0.01 0.3 10 with t_prev := 5 }
      (16 * ((1 : ℚ) - 3)) 5).1 = none := by
    norm_num [PIDController.control, pidInit]
  simp [callbackStep, decideCmd, ht, emit, pyMin, hc]
  rfl

/-- Mean of a constant list. -/
theorem npMean_replicate (k : ℕ) (hk : k ≠ 0) (v : ℚ) :
    npMean (List.replicate k v) = v := by
  have hk0 : (k : ℚ) ≠ 0 := Nat.cast_ne_zero.mpr hk
  simp [npMean, List.sum_replicate, nsmul_eq_mul]
  field_simp

/-- Slicing a constant list yields a constant list. -/
theorem npSlice_replicate (n a b : ℕ) (v : ℚ) :
    npSlice (List.replicate n v) a b =
      List.replicate (min (b - a) (n - a)) v := by
  simp [npSlice, List.drop_replicate, List.take_replicate]

/-- Every sector of a uniform scan of value `v` has mean `v`, and the
asymmetric front combination gives `v + v/2 = 3*v/2`. -/
theorem preprocess_replicate (v : ℚ) :
    preprocess (List.replicate 360 v) =
      { front := 3 * v / 2, obliqueLeft := v, obliqueRight := v,
        left := v, right := v } := by
  have h20 : npSlice (List.replicate 360 v) 0 20 = List.replicate 20 v := by
    rw [npSlice_replicate]
    congr 1
  have h340 : npSlice (List.replicate 360 v) 340 360 = List.replicate 20 v := by
    rw [npSlice_replicate]
    congr 1
  have h70 : npSlice (List.replicate 360 v) 0 70 = List.replicate 70 v := by
    rw [npSlice_replicate]
    congr 1
  have h290 : npSlice (List.replicate 360 v) 290 360 = List.replicate 70 v := by
    rw [npSlice_replicate]
    congr 1
  have h30 : npSlice (List.replicate 360 v) 30 85 = List.replicate 55 v := by
    rw [npSlice_replicate]
    congr 1
  have h275 : npSlice (List.replicate 360 v) 275 330 = List.replicate 55 v := by
    rw [npSlice_replicate]
    congr 1
  unfold preprocess
  rw [h20, h340, h70, h290, h30, h275,
    npMean_replicate 20 (by norm_num) v, npMean_replicate 70 (by norm_num) v,
    npMean_replicate 55 (by norm_num) v]
  congr 1
  ring

/-- A uniform scan strictly below the maximum range passes the range
filter unchanged. -/
theorem clampScan_replicate (v : ℚ) (h35 : v < 3.5) :
    clampScan (List.replicate 360 v) = List.replicate 360 v := by
  unfold clampScan
  rw [List.map_replicate]
  congr 1
  exact if_neg (not_le.mpr h35)

/-- Claim C8: for a length-360 scan with every sample equal to `v`,
`0 <= v < 3.5`, preprocessing yields `obliqueLeft = obliqueRight = left
= right = v` and `front = 1.5 * v` exactly. -/
theorem uniform_scan_sectors (v : ℚ) (_h0 : 0 ≤ v) (h35 : v < 3.5) :
    preprocess (clampScan (List.replicate 360 v)) =
      { front := 1.5 * v, obliqueLeft := v, obliqueRight := v,
        left := v, right := v } := by
  rw [clampScan_replicate v h35, preprocess_replicate]
  congr 1
  ring

/-- Witness for C8 at `v = 1`. -/
theorem uniform_scan_sectors_witness :
    preprocess (clampScan (List.replicate 360 (1 : ℚ))) =
      { front := 1.5 * 1, obliqueLeft := 1, obliqueRight := 1,
        left := 1, right := 1 } :=
  uniform_scan_sectors 1 (by norm_num) (by norm_num)

/-- The fail-fast contract the spec demands of preprocessing (absent
from the code): reject a scan whose length is not 360 or that still
contains a negative sample after clamping; otherwise defer to the
code's aggregation. Stated only to be compared with `preprocess`. -/
def preprocessSpecced (l : List ℚ) : Except String Snapshot :=
  if l.length ≠ 360 ∨ ∃ x ∈ l, x < 0 then Except.error "InvalidScanError"
  else Except.ok (preprocess l)

/-- Claim C9 counterexample: a length-360 scan of negative samples
(which survive the one-sided range filter) would be rejected by the
spec's fail-fast contract, yet the code silently computes the
degenerate (negative) sector means — no `InvalidScanError` is raised
anywhere. -/
theorem invalid_scan_not_rejected_cex :
    (-1 : ℚ) ∈ clampScan (List.replicate 360 (-1 : ℚ))
    ∧ (-1 : ℚ) < 0
    ∧ preprocessSpecced (clampScan (List.replicate 360 (-1 : ℚ))) =
        Except.error "InvalidScanError"
    ∧ preprocess (clampScan (List.replicate 360 (-1 : ℚ))) =
        { front := -3 / 2, obliqueLeft := -1, obliqueRight := -1,
          left := -1, right := -1 } := by
  have hcl : clampScan (List.replicate 360 (-1 : ℚ)) =
      List.replicate 360 (-1 : ℚ) :=
    clampScan_replicate (-1) (by norm_num)
  refine ⟨?_, by norm_num, ?_, ?_⟩
  · rw [hcl]
    exact List.mem_replicate.mpr ⟨by norm_num, rfl⟩
  · rw [hcl, preprocessSpecced, if_pos]
    right
    exact ⟨-1, List.mem_replicate.mpr ⟨by norm_num, rfl⟩, by norm_num⟩
  · rw [hcl, preprocess_replicate]
    norm_num

/-- Claim C9 (amended): preprocessing has no error path: a scan that
still contains negative samples after the (one-sided) range filter is
processed silently, yielding the corresponding negative sector means
instead of any failure. -/
theorem negative_scan_processed_silently (v : ℚ) (hv : v < 0) :
    preprocess (clampScan (List.replicate 360 v)) =
      { front := 3 * v / 2, obliqueLeft := v, obliqueRight := v,
        left := v, right := v } := by
  rw [clampScan_replicate v (by linarith), preprocess_replicate]

/-- Witness for C9 (amended) at `v = -2`. -/
theorem negative_scan_processed_silently_witness :
    preprocess (clampScan (List.replicate 360 (-2 : ℚ))) =
      { front := 3 * (-2) / 2, obliqueLeft := -2, obliqueRight := -2,
        left := -2, right := -2 } :=
  negative_scan_processed_silently (-2) (by norm_num)

/-- Runs `n` successive calls of one `PIDController` with constant error `e`
and equally spaced timestamps (call `i` is made at time `i * dt`), the
pattern of the anti-windup test. -/
def pidIterate (s : PIDState) (e dt : ℚ) : ℕ → PIDState
  | 0 => s
  | n + 1 =>
      (PIDController.control (pidIterate s e dt n) e ((n + 1 : ℕ) * dt)).2

/-- Invariant of the constant-error iteration on a window of size 10:
after `n` calls the FIFO holds `min n 9` copies of `e`, the stored
integral equals `min n 9 * e`, and the stored timestamp is `n * dt`
(the tenth call fills the queue to its capacity of 10, upon which the
oldest sample is popped again, so the queue settles at 9 entries). -/
theorem pidIterate_invariant (kP kI kD e dt : ℚ) (hdt : 0 < dt) (n : ℕ) :
    (pidIterate (pidInit kP kI kD 10) e dt n).err_hist
        = List.replicate (min n 9) e
    ∧ (pidIterate (pidInit kP kI kD 10) e dt n).err_int
        = (min n 9 : ℕ) * e
    ∧ (pidIterate (pidInit kP kI kD 10) e dt n).t_prev = n * dt
    ∧ (pidIterate (pidInit kP kI kD 10) e dt n).kS = 10 := by
  induction n with
  | zero => simp [pidIterate, pidInit]
  | succ n ih =>
    obtain ⟨ihh, ihi, iht, ihk⟩ := ih
    have hdt' : (0 : ℚ) < ((n + 1 : ℕ) : ℚ) * dt
        - (pidIterate (pidInit kP kI kD 10) e dt n).t_prev := by
      rw [iht]
      push_cast
      nlinarith
    have hstep : pidIterate (pidInit kP kI kD 10) e dt (n + 1)
        = (PIDController.control (pidIterate (pidInit kP kI kD 10) e dt n)
            e ((n + 1 : ℕ) * dt)).2 := rfl
    have hstep2 : pidIterate (pidInit kP kI kD 10) e dt (n + 1)
        = (some ((pidIterate (pidInit kP kI kD 10) e dt n).kP * e
            + (pidIterate (pidInit kP kI kD 10) e dt n).kI
              * (fifoPush (pidIterate (pidInit kP kI kD 10) e dt n).err_hist
                  (pidIterate (pidInit kP kI kD 10) e dt n).err_int e
                  (pidIterate (pidInit kP kI kD 10) e dt n).kS).2
              * (((n + 1 : ℕ) : ℚ) * dt
                  - (pidIterate (pidInit kP kI kD 10) e dt n).t_prev)
            + (pidIterate (pidInit kP kI kD 10) e dt n).kD
              * (e - (pidIterate (pidInit kP kI kD 10) e dt n).err_prev)
              / (((n + 1 : ℕ) : ℚ) * dt
                  - (pidIterate (pidInit kP kI kD 10) e dt n).t_prev)),
          { pidIterate (pidInit kP kI kD 10) e dt n with
              err_hist := (fifoPush
                (pidIterate (pidInit kP kI kD 10) e dt n).err_hist
                (pidIterate (pidInit kP kI kD 10) e dt n).err_int e
                (pidIterate (pidInit kP kI kD 10) e dt n).kS).1,
              err_int := (fifoPush
                (pidIterate (pidInit kP kI kD 10) e dt n).err_hist
                (pidIterate (pidInit kP kI kD 10) e dt n).err_int e
                (pidIterate (pidInit kP kI kD 10) e dt n).kS).2,
              err_dif := e - (pidIterate (pidInit kP kI kD 10) e dt n).err_prev,
              err_prev := e,
              t_prev := ((n + 1 : ℕ) : ℚ) * dt }).2 := by
      rw [hstep]
      unfold PIDController.control
      rw [if_pos hdt']
    rcases le_or_lt 9 n with h9 | h9
    · have hmin : min n 9 = 9 := min_eq_right h9
      have hmin' : min (n + 1) 9 = 9 := min_eq_right (by omega)
      have hfull : (0 < 10 ∧ 10 ≤ (List.replicate (min n 9) e ++ [e]).length) := by
        rw [hmin]
        simp
      have hfifo : fifoPush (pidIterate (pidInit kP kI kD 10) e dt n).err_hist
          (pidIterate (pidInit kP kI kD 10) e dt n).err_int e
          (pidIterate (pidInit kP kI kD 10) e dt n).kS
          = (List.replicate 9 e, 9 * e) := by
        rw [ihh, ihi, ihk]
        unfold fifoPush
        rw [if_pos hfull, hmin]
        have hrep : List.replicate 9 e ++ [e] = List.replicate 10 e := by
          rw [← List.replicate_succ']
        rw [hrep, List.replicate_succ]
        simp only [List.tail_cons, List.headI_cons, Prod.mk.injEq,
          eq_self_iff_true, true_and]
        push_cast
        ring
      rw [hstep2]
      refine ⟨?_, ?_, ?_, ?_⟩
      · simp [hfifo, hmin']
      · simp [hfifo, hmin']
      · simp
      · exact ihk
    · have hmin : min n 9 = n := min_eq_left (by omega)
      have hmin' : min (n + 1) 9 = n + 1 := min_eq_left (by omega)
      have hnotfull : ¬(0 < 10 ∧ 10 ≤ (List.replicate (min n 9) e ++ [e]).length) := by
        rw [hmin]
        simp
        omega
      have hfifo : fifoPush (pidIterate (pidInit kP kI kD 10) e dt n).err_hist
          (pidIterate (pidInit kP kI kD 10) e dt n).err_int e
          (pidIterate (pidInit kP kI kD 10) e dt n).kS
          = (List.replicate (n + 1) e, ((n + 1 : ℕ) : ℚ) * e) := by
        rw [ihh, ihi, ihk]
        unfold fifoPush
        rw [if_neg hnotfull, hmin]
        simp only [Prod.mk.injEq]
        refine ⟨by rw [← List.replicate_succ'], by push_cast; ring⟩
      rw [hstep2]
      refine ⟨?_, ?_, ?_, ?_⟩
      · simp [hfifo, hmin']
      · simp [hfifo, hmin']
      · simp
      · exact ihk

/-- Claim C3 counterexample: with window size 10, constant error 1 and
unit timestep, after 11 calls the stored integral is 9, not `10 * 1`
(the queue reaches its capacity at the tenth call, upon which the
anti-windup logic immediately pops a sample back out). -/
theorem pid_antiwindup_cex :
    (pidIterate (pidInit 0.22 0.01 0.3 10) 1 1 11).err_int = 9
    ∧ (9 : ℚ) ≠ 10 * 1 := by
  have h := (pidIterate_invariant 0.22 0.01 0.3 1 1 (by norm_num) 11).2.1
  refine ⟨?_, by norm_num⟩
  rw [h]
  norm_num

/-- Claim C3 (amended): feeding a `PIDController` with window size
`kS = 10` a constant error `e` for 10 or more calls at a fixed timestep
`dt > 0` makes the stored integral sum settle at exactly `9 * e`
(`(kS - 1) * e`), and at every call count the stored sum stays within
`9 * |e|` in magnitude — it never grows unboundedly. -/
theorem pid_antiwindup_bounded (kP kI kD e dt : ℚ) (hdt : 0 < dt)
    (n : ℕ) (hn : 10 ≤ n) :
    (pidIterate (pidInit kP kI kD 10) e dt n).err_int = 9 * e
    ∧ ∀ m : ℕ,
        |(pidIterate (pidInit kP kI kD 10) e dt m).err_int| ≤ 9 * |e| := by
  constructor
  · have h := (pidIterate_invariant kP kI kD e dt hdt n).2.1
    rw [h, min_eq_right (by omega)]
    push_cast
    ring
  · intro m
    have h := (pidIterate_invariant kP kI kD e dt hdt m).2.1
    rw [h, abs_mul]
    have hm : |((min m 9 : ℕ) : ℚ)| ≤ 9 := by
      rw [abs_of_nonneg (by positivity)]
      exact_mod_cast min_le_right m 9
    exact mul_le_mul_of_nonneg_right hm (abs_nonneg e) |>.trans_eq rfl

/-- Witness for C3 (amended) with the lateral gains, `e = 1`, `dt = 1`,
`n = 10`. -/
theorem pid_antiwindup_bounded_witness :
    (pidIterate (pidInit 0.22 0.01 0.3 10) 1 1 10).err_int = 9 * 1
    ∧ ∀ m : ℕ,
        |(pidIterate (pidInit 0.22 0.01 0.3 10) 1 1 m).err_int| ≤ 9 * |1| :=
  pid_antiwindup_bounded 0.22 0.01 0.3 1 1 (by norm_num) 10 (by norm_num)
